import Mathlib

/-!
Shallow embedding of the order-lifecycle core of the merchant dashboard.

The repository contains two variants of the order-management component:

* a timer-based variant (`src/components/merchant/OrderManagement.tsx`) that
  keeps a per-order acceptance countdown, auto-declines expired pending
  orders, and applies merchant status updates purely locally; and
* a gateway-backed variant (an unnamed source file) that loads orders from
  the HTTP API (`src/services/api.ts`), filters/searches/sorts them for
  display, and applies status updates only after the gateway responds.

Timestamps that the source handles as ISO strings and converts with
`new Date(...).getTime()` are embedded directly as epoch milliseconds
(`Int`); `time_remaining` (seconds, always clamped to be non-negative by
`Math.max(0, ...)`) is embedded as `Nat`.
-/

/-- Status vocabulary of the timer-based variant
(`OrderManagement.tsx`, `Order['status']`). -/
inductive Status
  | pending
  | accepted
  | declined
  | inDelivery
  | delivered
deriving DecidableEq, Fintype, Repr

/-- Line item of an order in the timer-based variant. -/
structure OrderItem where
  productId : String
  productName : String
  quantity : Nat
  price : Int
  customization : Option String
deriving DecidableEq, Repr

/-- Order record of the timer-based variant. `offerExpiry` and
`estimatedDelivery` are the instants denoted by the ISO strings of the
source, in epoch milliseconds. -/
structure Order where
  id : String
  customerName : String
  customerPhone : String
  customerAddress : String
  items : List OrderItem
  totalAmount : Int
  status : Status
  orderTime : Int
  estimatedDelivery : Option Int
  offerExpiry : Option Int
  timeRemaining : Option Nat
deriving DecidableEq, Repr

/-- One countdown step for a single order: the body of the `setInterval`
callback of `OrderManagement.tsx`. For a pending order with an expiry the
remaining seconds are `Math.max(0, Math.floor((expiry - now) / 1000))`
(`Int.fdiv` is JavaScript `Math.floor` division); when they hit zero the
order is auto-declined with `timeRemaining` set to `0`, otherwise only
`timeRemaining` is refreshed. Every other order is returned untouched. -/
def tickOrder (now : Int) (o : Order) : Order :=
  match o.status, o.offerExpiry with
  | .pending, some expiry =>
    let timeLeft : Nat := (max 0 ((expiry - now).fdiv 1000)).toNat
    if timeLeft = 0 then
      { o with status := .declined, timeRemaining := some 0 }
    else
      { o with timeRemaining := some timeLeft }
  | _, _ => o

/-- One tick over the whole store (`setOrders(prevOrders.map(...))`). -/
def tickOrders (now : Int) (orders : List Order) : List Order :=
  orders.map (tickOrder now)

/-- The per-order update applied by `updateOrderStatus` of
`OrderManagement.tsx`: the requested status is written unconditionally,
`estimatedDelivery` becomes `now + 90 minutes` exactly when the new status
is `accepted` (otherwise it is kept), and both timer fields are cleared. -/
def applyStatus (now : Int) (newStatus : Status) (o : Order) : Order :=
  { o with
    status := newStatus
    estimatedDelivery :=
      if newStatus = .accepted then some (now + 90 * 60 * 1000)
      else o.estimatedDelivery
    offerExpiry := none
    timeRemaining := none }

/-- Embeds `updateOrderStatus` of the timer-based variant: map over the store,
rewriting the order whose id matches. -/
def updateOrderStatus (now : Int) (orders : List Order) (orderId : String)
    (newStatus : Status) : List Order :=
  orders.map fun o => if o.id = orderId then applyStatus now newStatus o else o

/-- A toast notification as shown through `useToast`. -/
structure Toast where
  title : String
  description : Option String
  destructive : Bool
deriving DecidableEq, Repr

/-- The `statusMessages` lookup of `updateOrderStatus`; the object has no
`pending` key, so a `pending` target yields no description. -/
def statusMessage : Status → Option String
  | .accepted => some "Order accepted successfully!"
  | .declined => some "Order declined."
  | .inDelivery => some "Order marked as in delivery."
  | .delivered => some "Order marked as delivered."
  | .pending => none

/-- Embeds `updateOrderStatus` including its observable outcome: the new store and
the toast it fires. The toast is the success-styled `"Order Status
Updated"` notification in every case, the function has no failure path. -/
def updateOrderStatusOp (now : Int) (orders : List Order) (orderId : String)
    (newStatus : Status) : List Order × Toast :=
  (updateOrderStatus now orders orderId newStatus,
   { title := "Order Status Updated"
     description := statusMessage newStatus
     destructive := false })

/-- The transition buttons rendered for an order in the timer-based variant
(both the `OrderCard` action row and the details-dialog footer): a pending
order offers Decline and Accept, an accepted order offers Start Delivery,
an in-delivery order offers Mark Delivered, and declined or delivered
orders offer nothing. -/
def cardActions : Status → List Status
  | .pending => [.declined, .accepted]
  | .accepted => [.inDelivery]
  | .inDelivery => [.delivered]
  | .declined => []
  | .delivered => []

/-- The string literal each status compares against in the filter effect
and the status-filter dropdown. -/
def statusKey : Status → String
  | .pending => "pending"
  | .accepted => "accepted"
  | .declined => "declined"
  | .inDelivery => "in-delivery"
  | .delivered => "delivered"

/-- The status-filter effect of the timer-based variant: `'all'` passes the
store through, any other value keeps the orders whose status matches. -/
def filterByStatus (statusFilter : String) (orders : List Order) : List Order :=
  if statusFilter = "all" then orders
  else orders.filter fun o => statusKey o.status = statusFilter

/-- Modelled from the spec: the canonical transition table of the Status
Transition Controller (spec section 4.2) — `pending → accepted`,
`pending → declined`, `accepted → in-delivery`, `in-delivery → delivered`,
everything else disallowed. The repository itself contains no such
validation function; this definition exists to compare the UI guards
against the table. -/
def specAllowedTransition : Status → Status → Bool
  | .pending, .accepted => true
  | .pending, .declined => true
  | .accepted, .inDelivery => true
  | .inDelivery, .delivered => true
  | _, _ => false

/-- Iterated ticks: `applyTicks t0 k o` is the state of order `o` after the
ticks fired at `t0 + 1s, …, t0 + k·1s`. -/
def applyTicks (t0 : Int) : Nat → Order → Order
  | 0, o => o
  | k + 1, o => tickOrder (t0 + 1000 * ((k : Int) + 1)) (applyTicks t0 k o)

/-- A pending order as produced at load time `t0` with the observed
2-minute acceptance window (`offerExpiry = t0 + 120s`,
`timeRemaining = 120`), mirroring the mock order `ORD-001`. -/
def mkPendingOrder (t0 : Int) : Order :=
  { id := "ORD-001"
    customerName := "Rajesh Kumar"
    customerPhone := "+91 9876543210"
    customerAddress := "123 MG Road"
    items := []
    totalAmount := 93
    status := .pending
    orderTime := t0
    estimatedDelivery := none
    offerExpiry := some (t0 + 120000)
    timeRemaining := some 120 }

/-- A delivered order (terminal status), for probing transition requests. -/
def deliveredSample : Order :=
  { id := "ORD-9"
    customerName := "Priya Sharma"
    customerPhone := "+91 8765432109"
    customerAddress := "456 Park Street"
    items := []
    totalAmount := 120
    status := .delivered
    orderTime := 0
    estimatedDelivery := some 7200000
    offerExpiry := none
    timeRemaining := none }

/-- A pending order whose acceptance window has already passed. -/
def expiredPendingSample : Order :=
  { id := "ORD-7"
    customerName := "Amit Patel"
    customerPhone := "+91 7654321098"
    customerAddress := "789 Gandhi Nagar"
    items := []
    totalAmount := 145
    status := .pending
    orderTime := 0
    estimatedDelivery := none
    offerExpiry := some 1000
    timeRemaining := some 1 }

/-- Line item of the gateway-backed variant (`OrderItem` of
`src/services/api.ts`). -/
structure ApiOrderItem where
  product_id : String
  variant_id : String
  quantity : Nat
  price : Int
  product_name : String
deriving DecidableEq, Repr

/-- Order record of the gateway-backed variant (`Order` of
`src/services/api.ts`). Its `status` is one of the strings `pending`,
`accepted`, `preparing`, `ready`, `delivered`, `cancelled`; it is kept as
`String` because the component also treats unknown strings (with
fallbacks). The TypeScript interface declares no `offer_expiry` field;
it is carried here as an optional dynamic property — no operation in the
source ever reads or writes it — so that statements about timer backfill
can be expressed at all. -/
structure ApiOrder where
  order_id : String
  customer_id : String
  merchant_id : String
  customer_name : String
  customer_phone : String
  customer_address : String
  items : List ApiOrderItem
  total_amount : Int
  status : String
  order_time : Int
  estimated_delivery : Option Int
  offer_expiry : Option Int
  created_at : String
  updated_at : Option String
deriving DecidableEq, Repr

/-- The load effect of the gateway-backed variant: on success the store is
replaced wholesale by the payload (`setOrders(ordersData)`), on failure it
is replaced by the empty list (`setOrders([])`). The previous store
contents are never consulted. -/
def loadOrders (store : List ApiOrder)
    (gatewayResult : Except String (List ApiOrder)) : List ApiOrder :=
  match store, gatewayResult with
  | _, .ok ordersData => ordersData
  | _, .error _ => []

/-- Embeds `handleStatusUpdate` of the gateway-backed variant, with the gateway
round-trip (`apiService.updateOrderStatus`) represented by its outcome:
only on a successful response is the matching stored order replaced by the
order the gateway returned; on failure the store is untouched and the
error is surfaced as a destructive toast. -/
def handleStatusUpdate (orders : List ApiOrder) (orderId newStatus : String)
    (gatewayResult : Except String ApiOrder) : List ApiOrder × Toast :=
  match gatewayResult with
  | .ok updatedOrder =>
    (orders.map fun o => if o.order_id = orderId then updatedOrder else o,
     { title := "Status Updated"
       description := some ("Order status updated to " ++ newStatus ++ ".")
       destructive := false })
  | .error e =>
    (orders,
     { title := "Error", description := some e, destructive := true })

/-- Embeds `getStatusOptions` of the gateway-backed variant: the `statusFlow`
lookup with its `|| []` fallback for statuses outside the table. -/
def getStatusOptions (currentStatus : String) : List String :=
  if currentStatus = "pending" then ["accepted", "cancelled"]
  else if currentStatus = "accepted" then ["preparing", "cancelled"]
  else if currentStatus = "preparing" then ["ready", "cancelled"]
  else if currentStatus = "ready" then ["delivered"]
  else if currentStatus = "delivered" then []
  else if currentStatus = "cancelled" then []
  else []

/-- The action-button render guard: the button container is rendered only
when the status is neither `delivered` nor `cancelled`, and then shows one
button per element of `getStatusOptions`. -/
def renderedActions (status : String) : List String :=
  if status ≠ "delivered" ∧ status ≠ "cancelled" then getStatusOptions status
  else []

/-- Substring test on character lists, the meaning of JavaScript
`String.prototype.includes`. -/
def charsContain (needle : List Char) : List Char → Bool
  | [] => needle.isEmpty
  | c :: rest => needle.isPrefixOf (c :: rest) || charsContain needle rest

/-- JavaScript `hay.includes(needle)`. -/
def strIncludes (hay needle : String) : Bool :=
  charsContain needle.data hay.data

/-- The free-text search predicate of the gateway-backed variant:
case-insensitive match on order id or customer name, raw match on the
phone number. -/
def matchesSearch (q : String) (o : ApiOrder) : Bool :=
  strIncludes o.order_id.toLower q.toLower ||
  strIncludes o.customer_name.toLower q.toLower ||
  strIncludes o.customer_phone q

/-- Insert an order into a list kept sorted by `order_time` descending,
after every element whose time is greater or equal — the relative order of
equal keys is preserved, as required of `Array.prototype.sort`. -/
def insertDescByTime (o : ApiOrder) : List ApiOrder → List ApiOrder
  | [] => [o]
  | x :: xs =>
    if x.order_time ≥ o.order_time then x :: insertDescByTime o xs
    else o :: x :: xs

/-- Stable sort by `order_time` descending: the meaning of
`filtered.sort((a, b) => b.order_time - a.order_time)` (any stable sort
with the same comparator produces this same list). -/
def sortDescByTime (l : List ApiOrder) : List ApiOrder :=
  l.foldl (fun acc o => insertDescByTime o acc) []

/-- The filter/search/sort effect of the gateway-backed variant, as the
list it renders: status filter (skipped for `'all'`), then the search
filter (skipped for the empty query, which is falsy), then the sort by
creation date, newest first. -/
def listOrders (statusFilter searchQuery : String)
    (orders : List ApiOrder) : List ApiOrder :=
  let f1 :=
    if statusFilter = "all" then orders
    else orders.filter fun o => o.status = statusFilter
  let f2 :=
    if searchQuery = "" then f1
    else f1.filter (matchesSearch searchQuery)
  sortDescByTime f2

/-- The store contents after the filter/search/sort effect ran:
`Array.prototype.sort` sorts in place, and when neither filter applies
`filtered` still aliases the store array, so the store itself is
reordered; whenever some filter applied, `filter` produced a fresh array
and the store is untouched. -/
def listEffectStore (statusFilter searchQuery : String)
    (orders : List ApiOrder) : List ApiOrder :=
  if statusFilter = "all" ∧ searchQuery = "" then sortDescByTime orders
  else orders

/-- The authentication credential of `src/services/api.ts`: the
module-level `authToken` variable and its `localStorage` mirror. -/
structure TokenState where
  memoryToken : Option String
  storageToken : Option String
deriving DecidableEq, Repr

/-- Embeds `clearAuthToken`: resets the module variable to `null` and removes the
`localStorage` entry. -/
def clearAuthToken (_tokens : TokenState) : TokenState :=
  { memoryToken := none, storageToken := none }

/-- An HTTP response as observed by `ApiService.request`. -/
structure HttpResponse where
  status : Nat
  statusText : String
  body : String
deriving DecidableEq, Repr

/-- The errors `ApiService.request` can throw: the dedicated
authentication failure for a 401, and the generic gateway error built from
the status line and body for any other non-ok response. -/
inductive ApiError
  | authFailed
  | gatewayError (status : Nat) (statusText : String) (body : String)
deriving DecidableEq, Repr

/-- Embeds `response.ok` of the Fetch API: status in the range 200–299. -/
def responseOk (r : HttpResponse) : Bool :=
  200 ≤ r.status && r.status < 300

/-- The error-handling core of `ApiService.request`, as a function of the
received response: an ok response returns the body and leaves the
credential alone; a 401 clears the credential (memory and storage) and
fails with the authentication error; any other failure status leaves the
credential alone and fails with the generic gateway error. -/
def request (tokens : TokenState) (resp : HttpResponse) :
    TokenState × Except ApiError String :=
  if responseOk resp then (tokens, .ok resp.body)
  else if resp.status = 401 then (clearAuthToken tokens, .error .authFailed)
  else (tokens,
    .error (.gatewayError resp.status resp.statusText resp.body))

/-- A pending gateway order, first in insertion order, older timestamp. -/
def apiOrderA : ApiOrder :=
  { order_id := "ORD-A"
    customer_id := "CUST-1"
    merchant_id := "merchant123"
    customer_name := "Rajesh Kumar"
    customer_phone := "+91 9876543210"
    customer_address := "123 MG Road"
    items := []
    total_amount := 93
    status := "pending"
    order_time := 100000
    estimated_delivery := none
    offer_expiry := none
    created_at := "t1"
    updated_at := none }

/-- A pending gateway order, second in insertion order, newer timestamp. -/
def apiOrderB : ApiOrder :=
  { order_id := "ORD-B"
    customer_id := "CUST-2"
    merchant_id := "merchant123"
    customer_name := "Priya Sharma"
    customer_phone := "+91 8765432109"
    customer_address := "456 Park Street"
    items := []
    total_amount := 120
    status := "pending"
    order_time := 200000
    estimated_delivery := none
    offer_expiry := none
    created_at := "t2"
    updated_at := none }

/-- Helper: a status update whose id matches no stored order leaves the
store unchanged. -/
theorem updateOrderStatus_absent (now : Int) (st : Status) (orderId : String) :
    ∀ (l : List Order), (∀ o ∈ l, o.id ≠ orderId) →
      updateOrderStatus now l orderId st = l := by
  intro l
  induction l with
  | nil => intro _; rfl
  | cons x xs ih =>
    intro h
    simp only [updateOrderStatus, List.map_cons] at ih ⊢
    rw [if_neg (h x (List.mem_cons_self x xs)),
      ih fun o ho => h o (List.mem_cons_of_mem x ho)]

/-- C1: the claim fails on the code — `updateOrderStatus` applies a
transition out of the terminal `delivered` status instead of rejecting it:
requesting `accepted` on a delivered order changes its stored status (and
overwrites `estimatedDelivery`), and no error exists in the function. -/
theorem C1_counterexample :
    updateOrderStatus 1000 [deliveredSample] "ORD-9" .accepted
      = [{ deliveredSample with
           status := .accepted
           estimatedDelivery := some 5401000 }]
    ∧ deliveredSample.status = .delivered := by
  decide

/-- C1 (amended): no `InvalidTransition` rejection exists — `applyStatus`
writes any requested status unconditionally; transitions outside the table
are prevented only by the UI, whose rendered buttons offer exactly the
transitions of the spec table, in particular none for `declined` or
`delivered` orders. -/
theorem C1_transition_guard_is_ui_only :
    (∀ s t : Status, t ∈ cardActions s ↔ specAllowedTransition s t = true)
    ∧ cardActions .declined = []
    ∧ cardActions .delivered = []
    ∧ ∀ (now : Int) (st : Status) (o : Order), (applyStatus now st o).status = st := by
  exact ⟨by decide, rfl, rfl, fun now st o => rfl⟩

/-- C2: the claim fails on the code — the countdown tick auto-declines an
expired pending order but leaves `offerExpiry` present and sets
`timeRemaining` to `some 0` rather than clearing them, so the
presence-iff-pending invariant is violated on the resulting declined
order. -/
theorem C2_counterexample :
    (tickOrder 5000 expiredPendingSample).status = .declined
    ∧ (tickOrder 5000 expiredPendingSample).offerExpiry = some 1000
    ∧ (tickOrder 5000 expiredPendingSample).timeRemaining = some 0 := by
  decide

/-- C2 (amended): every merchant-initiated `updateOrderStatus` clears both
timer fields, but the tick's auto-decline does not: on an expired pending
order it produces exactly the declined order with `timeRemaining = 0` and
`offerExpiry` untouched. -/
theorem C2_timer_fields_after_transitions :
    (∀ (now : Int) (st : Status) (o : Order),
      (applyStatus now st o).offerExpiry = none
      ∧ (applyStatus now st o).timeRemaining = none)
    ∧ ∀ (now e : Int) (o : Order),
      o.status = .pending → o.offerExpiry = some e → (e - now).fdiv 1000 ≤ 0 →
      tickOrder now o = { o with status := .declined, timeRemaining := some 0 } := by
  refine ⟨fun now st o => ⟨rfl, rfl⟩, ?_⟩
  intro now e o h1 h2 h3
  obtain ⟨oid, cn, cp, ca, its, ta, st, ot, ed, oe, tr⟩ := o
  simp only at h1 h2
  subst h1; subst h2
  have hmax : max 0 ((e - now).fdiv 1000) = 0 := max_eq_left h3
  simp [tickOrder, hmax]

/-- C2 witness: the amended statement evaluated on concrete orders. -/
theorem C2_timer_fields_witness :
    (applyStatus 0 .accepted (mkPendingOrder 0)).offerExpiry = none
    ∧ (applyStatus 0 .accepted (mkPendingOrder 0)).timeRemaining = none
    ∧ tickOrder 5000 expiredPendingSample
        = { expiredPendingSample with status := .declined, timeRemaining := some 0 } :=
  ⟨(C2_timer_fields_after_transitions.1 0 .accepted (mkPendingOrder 0)).1,
   (C2_timer_fields_after_transitions.1 0 .accepted (mkPendingOrder 0)).2,
   C2_timer_fields_after_transitions.2 5000 1000 expiredPendingSample rfl rfl
     (by decide)⟩

/-- C4: accepting a pending order at time `now` sets `estimatedDelivery`
to exactly `now + 90` minutes and clears both timer fields; a target
status other than `accepted` leaves `estimatedDelivery` unchanged, the
countdown tick never touches it, and the only UI transition with target
`accepted` starts from `pending`. -/
theorem C4_acceptance_sets_eta :
    (∀ (now : Int) (o : Order), o.status = .pending →
      (applyStatus now .accepted o).estimatedDelivery = some (now + 90 * 60 * 1000)
      ∧ (applyStatus now .accepted o).offerExpiry = none
      ∧ (applyStatus now .accepted o).timeRemaining = none)
    ∧ (∀ (now : Int) (st : Status) (o : Order), st ≠ .accepted →
      (applyStatus now st o).estimatedDelivery = o.estimatedDelivery)
    ∧ (∀ (now : Int) (o : Order),
      (tickOrder now o).estimatedDelivery = o.estimatedDelivery)
    ∧ ∀ s : Status, .accepted ∈ cardActions s → s = .pending := by
  refine ⟨fun now o _ => ⟨by simp [applyStatus], rfl, rfl⟩, ?_, ?_, by decide⟩
  · intro now st o h
    simp [applyStatus, h]
  · intro now o
    obtain ⟨oid, cn, cp, ca, its, ta, st, ot, ed, oe, tr⟩ := o
    cases st <;> cases oe <;>
      first
        | rfl
        | (simp only [tickOrder]; split <;> rfl)

/-- C4 witness: the theorem applied to concrete orders. -/
theorem C4_acceptance_sets_eta_witness :
    (applyStatus 1000 .accepted (mkPendingOrder 0)).estimatedDelivery
        = some (1000 + 90 * 60 * 1000)
    ∧ (applyStatus 1000 .declined (mkPendingOrder 0)).estimatedDelivery
        = (mkPendingOrder 0).estimatedDelivery
    ∧ (tickOrder 1000 deliveredSample).estimatedDelivery
        = deliveredSample.estimatedDelivery
    ∧ Status.pending = Status.pending :=
  ⟨(C4_acceptance_sets_eta.1 1000 (mkPendingOrder 0) rfl).1,
   C4_acceptance_sets_eta.2.1 1000 .declined (mkPendingOrder 0) (by decide),
   C4_acceptance_sets_eta.2.2.1 1000 deliveredSample,
   C4_acceptance_sets_eta.2.2.2 .pending (by decide)⟩

/-- C5: the claim fails on the code — the timer-based variant's
`updateOrderStatus` involves no gateway at all (its inputs contain no
gateway outcome to wait for) and mutates the local store immediately:
accepting the stored pending order changes its status, ETA and timer
fields right away, so the store is not mutated "only after gateway
acknowledgment". -/
theorem C5_counterexample :
    updateOrderStatus 1000 [mkPendingOrder 0] "ORD-001" .accepted
      = [{ mkPendingOrder 0 with
           status := .accepted
           estimatedDelivery := some 5401000
           offerExpiry := none
           timeRemaining := none }]
    ∧ updateOrderStatus 1000 [mkPendingOrder 0] "ORD-001" .accepted
      ≠ [mkPendingOrder 0] := by
  decide

/-- C5 (amended): only the gateway-backed variant's `handleStatusUpdate`
gates mutation on the gateway — on a gateway error the store is returned
unchanged (with a destructive toast), and on success every non-matching
order survives while the matching order is replaced by the order the
gateway returned; the timer-based variant instead mutates the local store
immediately with no gateway round-trip. -/
theorem C5_mutation_only_after_ack :
    (∀ (l : List ApiOrder) (id st e : String),
      (handleStatusUpdate l id st (.error e)).1 = l
      ∧ (handleStatusUpdate l id st (.error e)).2.destructive = true)
    ∧ (∀ (l : List ApiOrder) (id st : String) (u o : ApiOrder),
      o ∈ l → o.order_id ≠ id → o ∈ (handleStatusUpdate l id st (.ok u)).1)
    ∧ ∀ (l : List ApiOrder) (id st : String) (u o : ApiOrder),
      o ∈ l → o.order_id = id → u ∈ (handleStatusUpdate l id st (.ok u)).1 := by
  refine ⟨fun l id st e => ⟨rfl, rfl⟩, ?_, ?_⟩
  · intro l id st u o ho hne
    simp only [handleStatusUpdate]
    exact List.mem_map.mpr ⟨o, ho, by rw [if_neg hne]⟩
  · intro l id st u o ho heq
    simp only [handleStatusUpdate]
    exact List.mem_map.mpr ⟨o, ho, by rw [if_pos heq]⟩

/-- C5 witness: the theorem applied to concrete stores and responses. -/
theorem C5_mutation_only_after_ack_witness :
    (handleStatusUpdate [apiOrderA] "ORD-A" "accepted" (.error "network down")).1
      = [apiOrderA]
    ∧ apiOrderA ∈
        (handleStatusUpdate [apiOrderA, apiOrderB] "ORD-B" "accepted" (.ok apiOrderB)).1
    ∧ apiOrderB ∈
        (handleStatusUpdate [apiOrderA, apiOrderB] "ORD-B" "accepted" (.ok apiOrderB)).1 :=
  ⟨(C5_mutation_only_after_ack.1 [apiOrderA] "ORD-A" "accepted" "network down").1,
   C5_mutation_only_after_ack.2.1 [apiOrderA, apiOrderB] "ORD-B" "accepted"
     apiOrderB apiOrderA (by decide) (by decide),
   C5_mutation_only_after_ack.2.2 [apiOrderA, apiOrderB] "ORD-B" "accepted"
     apiOrderB apiOrderB (by decide) (by decide)⟩

/-- C6: the claim fails on the code — a status update for an id absent
from the store leaves the store unchanged but surfaces no `OrderNotFound`
error: the operation fires its ordinary success toast. -/
theorem C6_counterexample :
    (updateOrderStatusOp 0 [mkPendingOrder 0] "ORD-404" .accepted).1
      = [mkPendingOrder 0]
    ∧ (updateOrderStatusOp 0 [mkPendingOrder 0] "ORD-404" .accepted).2
      = { title := "Order Status Updated"
          description := some "Order accepted successfully!"
          destructive := false } := by
  decide

/-- C6 (amended): for an id matching no stored order the update modifies
no stored order, but instead of failing it reports success — the toast is
the non-destructive `"Order Status Updated"` notification. -/
theorem C6_absent_id_reports_success :
    ∀ (now : Int) (orders : List Order) (orderId : String) (st : Status),
      (∀ o ∈ orders, o.id ≠ orderId) →
      (updateOrderStatusOp now orders orderId st).1 = orders
      ∧ (updateOrderStatusOp now orders orderId st).2.title = "Order Status Updated"
      ∧ (updateOrderStatusOp now orders orderId st).2.destructive = false := by
  intro now orders orderId st h
  exact ⟨updateOrderStatus_absent now st orderId orders h, rfl, rfl⟩

/-- C6 witness: the amended statement on a concrete store. -/
theorem C6_absent_id_witness :
    (updateOrderStatusOp 7 [mkPendingOrder 0, deliveredSample] "ORD-404" .declined).1
      = [mkPendingOrder 0, deliveredSample]
    ∧ (updateOrderStatusOp 7 [mkPendingOrder 0, deliveredSample] "ORD-404" .declined).2.title
      = "Order Status Updated"
    ∧ (updateOrderStatusOp 7 [mkPendingOrder 0, deliveredSample] "ORD-404" .declined).2.destructive
      = false :=
  C6_absent_id_reports_success 7 [mkPendingOrder 0, deliveredSample] "ORD-404"
    .declined (by decide)

/-- C8: the claim fails on the code — `loadOrders` stores the gateway
payload verbatim: a pending order arriving without an `offer_expiry` still
has none after the first load, no `now + 2` minutes expiry is assigned
(the gateway order schema has no such field and the load effect writes the
payload through unchanged). -/
theorem C8_counterexample :
    loadOrders [] (.ok [apiOrderA]) = [apiOrderA]
    ∧ apiOrderA.status = "pending"
    ∧ apiOrderA.offer_expiry = none := by
  decide

/-- C8 (amended): `load` replaces the entire store with the gateway
payload verbatim and never consults the previous contents, so it is
idempotent on an identical payload; it performs no timer backfill of any
kind (and on a failed load the store becomes empty). -/
theorem C8_load_replaces_verbatim :
    (∀ (s : List ApiOrder) (p : Except String (List ApiOrder)),
      loadOrders (loadOrders s p) p = loadOrders s p)
    ∧ (∀ (s data : List ApiOrder), loadOrders s (.ok data) = data)
    ∧ ∀ (s : List ApiOrder) (e : String), loadOrders s (.error e) = [] := by
  refine ⟨fun s p => ?_, fun s data => rfl, fun s e => rfl⟩
  cases p <;> rfl

/-- C9: a 401 response makes `ApiService.request` clear the cached
credential — both the in-memory token and its persistent mirror become
absent — and fail with the authentication error, which is a different
error from every generic gateway error. -/
theorem C9_unauthorized_clears_credential :
    ∀ (tokens : TokenState) (resp : HttpResponse), resp.status = 401 →
      (request tokens resp).1 = { memoryToken := none, storageToken := none }
      ∧ (request tokens resp).2 = .error .authFailed
      ∧ ∀ (n : Nat) (st b : String),
          (ApiError.authFailed : ApiError) ≠ .gatewayError n st b := by
  intro tokens resp h
  obtain ⟨s, st, b⟩ := resp
  simp only at h
  subst h
  exact ⟨rfl, rfl, fun n st b hc => ApiError.noConfusion hc⟩

/-- C9 witness: the theorem applied to a concrete 401 response. -/
theorem C9_unauthorized_witness :
    (request { memoryToken := some "tok", storageToken := some "tok" }
        { status := 401, statusText := "Unauthorized", body := "" }).1
      = { memoryToken := none, storageToken := none }
    ∧ (request { memoryToken := some "tok", storageToken := some "tok" }
        { status := 401, statusText := "Unauthorized", body := "" }).2
      = .error .authFailed
    ∧ (ApiError.authFailed : ApiError) ≠ .gatewayError 500 "Server Error" "boom" :=
  ⟨(C9_unauthorized_clears_credential _ _ rfl).1,
   (C9_unauthorized_clears_credential _ _ rfl).2.1,
   (C9_unauthorized_clears_credential
      { memoryToken := some "tok", storageToken := some "tok" }
      { status := 401, statusText := "Unauthorized", body := "" } rfl).2.2
     500 "Server Error" "boom"⟩

/-- C10: the merchant-selectable next statuses of the gateway-backed
variant form the fixed table pending → {accepted, cancelled}, accepted →
{preparing, cancelled}, preparing → {ready, cancelled}, ready →
{delivered}; the option list is empty exactly for `delivered`, `cancelled`
or a status outside the known vocabulary; and the rendered action buttons
coincide with `getStatusOptions` for every status. -/
theorem C10_status_options_table :
    getStatusOptions "pending" = ["accepted", "cancelled"]
    ∧ getStatusOptions "accepted" = ["preparing", "cancelled"]
    ∧ getStatusOptions "preparing" = ["ready", "cancelled"]
    ∧ getStatusOptions "ready" = ["delivered"]
    ∧ (∀ s : String, getStatusOptions s = [] ↔
        (s = "delivered" ∨ s = "cancelled"
          ∨ s ∉ ["pending", "accepted", "preparing", "ready", "delivered", "cancelled"]))
    ∧ ∀ s : String, renderedActions s = getStatusOptions s := by
  refine ⟨rfl, rfl, rfl, rfl, ?_, ?_⟩
  · intro s
    by_cases h1 : s = "pending"
    · subst h1; decide
    · by_cases h2 : s = "accepted"
      · subst h2; decide
      · by_cases h3 : s = "preparing"
        · subst h3; decide
        · by_cases h4 : s = "ready"
          · subst h4; decide
          · by_cases h5 : s = "delivered"
            · subst h5; decide
            · by_cases h6 : s = "cancelled"
              · subst h6; decide
              · simp [getStatusOptions, h1, h2, h3, h4, h5, h6]
  · intro s
    by_cases h5 : s = "delivered"
    · subst h5; decide
    · by_cases h6 : s = "cancelled"
      · subst h6; decide
      · simp [renderedActions, h5, h6]

/-- Helper: the tick leaves any non-pending order untouched. -/
theorem tickOrder_nonpending (now : Int) (o : Order) (h : o.status ≠ .pending) :
    tickOrder now o = o := by
  obtain ⟨oid, cn, cp, ca, its, ta, st, ot, ed, oe, tr⟩ := o
  cases st <;> first | (exact absurd rfl h) | (cases oe <;> rfl)

/-- Helper: the tick on a pending order with an expiry, split on whether
the floored remaining seconds are already non-positive. -/
theorem tickOrder_pending (now e : Int) (o : Order) (h1 : o.status = .pending)
    (h2 : o.offerExpiry = some e) :
    tickOrder now o =
      if (e - now).fdiv 1000 ≤ 0 then
        { o with status := .declined, timeRemaining := some 0 }
      else
        { o with timeRemaining := some ((e - now).fdiv 1000).toNat } := by
  obtain ⟨oid, cn, cp, ca, its, ta, st, ot, ed, oe, tr⟩ := o
  simp only at h1 h2
  subst h1; subst h2
  rcases le_or_lt ((e - now).fdiv 1000) 0 with h | h
  · have hm : max 0 ((e - now).fdiv 1000) = 0 := max_eq_left h
    rw [if_pos h]
    simp [tickOrder, hm]
  · have hm : max 0 ((e - now).fdiv 1000) = (e - now).fdiv 1000 := max_eq_right h.le
    have hne : ((e - now).fdiv 1000).toNat ≠ 0 := by omega
    rw [if_neg (not_le.mpr h)]
    simp [tickOrder, hm, hne]

/-- Helper: closed form of the iterated ticks on the 2-minute pending
order loaded at `t0`: still pending with `120 - k` seconds left before
tick 120, auto-declined with zero seconds left from tick 120 on. -/
theorem applyTicks_mkPendingOrder (t0 : Int) (k : Nat) :
    applyTicks t0 k (mkPendingOrder t0) =
      if k < 120 then
        { mkPendingOrder t0 with timeRemaining := some (120 - k) }
      else
        { mkPendingOrder t0 with status := .declined, timeRemaining := some 0 } := by
  induction k with
  | zero =>
    rw [if_pos (by omega)]
    rfl
  | succ k ih =>
    simp only [applyTicks]
    rw [ih]
    by_cases hk : k < 120
    · rw [if_pos hk]
      rw [tickOrder_pending (t0 + 1000 * ((k : Int) + 1)) (t0 + 120000) _ rfl rfl]
      have hd : ((t0 + 120000) - (t0 + 1000 * ((k : Int) + 1))).fdiv 1000
          = 119 - (k : Int) := by
        have h1 : (t0 + 120000) - (t0 + 1000 * ((k : Int) + 1))
            = 1000 * (119 - (k : Int)) := by ring
        rw [h1, Int.mul_fdiv_cancel_left _ (by norm_num)]
      rw [hd]
      by_cases hk2 : k < 119
      · rw [if_neg (by omega), if_pos (by omega)]
        have hn : ((119 : Int) - (k : Int)).toNat = 120 - (k + 1) := by omega
        rw [hn]
      · rw [if_pos (by omega), if_neg (by omega)]
    · rw [if_neg hk, if_neg (by omega)]
      exact tickOrder_nonpending _ _ fun h => Status.noConfusion h

/-- C3: the countdown tick never touches a non-pending order; on a pending
order with an expiry the recomputed `timeRemaining` is exactly
`max(0, floor((expiry - now)/1000))`; and sampling a freshly loaded
2-minute pending order after `k` one-second ticks shows `120 - k` seconds
(truncated at zero), for every `k`. -/
theorem C3_countdown_formula :
    (∀ (now : Int) (o : Order), o.status ≠ .pending → tickOrder now o = o)
    ∧ (∀ (now e : Int) (o : Order), o.status = .pending → o.offerExpiry = some e →
        (tickOrder now o).timeRemaining = some (max 0 ((e - now).fdiv 1000)).toNat)
    ∧ ∀ (t0 : Int) (k : Nat),
        (applyTicks t0 k (mkPendingOrder t0)).timeRemaining = some (120 - k) := by
  refine ⟨fun now o h => tickOrder_nonpending now o h, ?_, ?_⟩
  · intro now e o h1 h2
    rw [tickOrder_pending now e o h1 h2]
    rcases le_or_lt ((e - now).fdiv 1000) 0 with h | h
    · rw [if_pos h, max_eq_left h]
      rfl
    · rw [if_neg (not_le.mpr h), max_eq_right h.le]
  · intro t0 k
    rw [applyTicks_mkPendingOrder]
    by_cases hk : k < 120
    · rw [if_pos hk]
    · rw [if_neg hk]
      have h0 : 120 - k = 0 := by omega
      rw [h0]

/-- C3 witness: the three parts evaluated on concrete orders and ticks. -/
theorem C3_countdown_witness :
    tickOrder 1000 deliveredSample = deliveredSample
    ∧ (tickOrder 5000 (mkPendingOrder 0)).timeRemaining
        = some (max 0 (((0 : Int) + 120000 - 5000).fdiv 1000)).toNat
    ∧ (applyTicks 0 5 (mkPendingOrder 0)).timeRemaining = some (120 - 5) :=
  ⟨C3_countdown_formula.1 1000 deliveredSample (by decide),
   C3_countdown_formula.2.1 5000 ((0 : Int) + 120000) (mkPendingOrder 0) rfl rfl,
   C3_countdown_formula.2.2 0 5⟩

/-- Helper: inserting into the descending-by-time list is a permutation of
consing. -/
theorem insertDescByTime_perm (o : ApiOrder) (l : List ApiOrder) :
    (insertDescByTime o l).Perm (o :: l) := by
  induction l with
  | nil => simp [insertDescByTime]
  | cons x xs ih =>
    simp only [insertDescByTime]
    split
    · exact (ih.cons x).trans (List.Perm.swap o x xs)
    · rfl

/-- Helper: folding the stable insertion over a list permutes the
accumulator followed by the list. -/
theorem foldl_insertDescByTime_perm (l : List ApiOrder) :
    ∀ acc : List ApiOrder,
      (l.foldl (fun acc o => insertDescByTime o acc) acc).Perm (acc ++ l) := by
  induction l with
  | nil => intro acc; simp
  | cons x xs ih =>
    intro acc
    simp only [List.foldl_cons]
    exact (ih (insertDescByTime x acc)).trans
      (((insertDescByTime_perm x acc).append_right xs).trans List.perm_middle.symm)

/-- Helper: the sort is a permutation of its input. -/
theorem sortDescByTime_perm (l : List ApiOrder) : (sortDescByTime l).Perm l := by
  simpa using foldl_insertDescByTime_perm l []

/-- Helper: inserting preserves descending-by-time sortedness. -/
theorem insertDescByTime_sorted (o : ApiOrder) (l : List ApiOrder)
    (h : l.Sorted fun a b => b.order_time ≤ a.order_time) :
    (insertDescByTime o l).Sorted fun a b => b.order_time ≤ a.order_time := by
  induction l with
  | nil => simp [insertDescByTime]
  | cons x xs ih =>
    simp only [insertDescByTime]
    rcases List.sorted_cons.mp h with ⟨hx, hxs⟩
    split
    · rename_i hge
      refine List.sorted_cons.mpr ⟨?_, ih hxs⟩
      intro b hb
      rcases List.mem_cons.mp ((insertDescByTime_perm o xs).mem_iff.mp hb) with h1 | h2
      · subst h1; exact hge
      · exact hx _ h2
    · rename_i hlt
      refine List.sorted_cons.mpr ⟨?_, h⟩
      intro b hb
      rcases List.mem_cons.mp hb with h1 | h2
      · subst h1; omega
      · exact le_trans (hx _ h2) (by omega)

/-- Helper: the sort output is sorted by `order_time` descending. -/
theorem sortDescByTime_sorted (l : List ApiOrder) :
    (sortDescByTime l).Sorted fun a b => b.order_time ≤ a.order_time := by
  have key : ∀ (l acc : List ApiOrder),
      (acc.Sorted fun a b => b.order_time ≤ a.order_time) →
      ((l.foldl (fun acc o => insertDescByTime o acc) acc).Sorted
        fun a b => b.order_time ≤ a.order_time) := by
    intro l
    induction l with
    | nil => intro acc h; simpa using h
    | cons x xs ih =>
      intro acc h
      simp only [List.foldl_cons]
      exact ih _ (insertDescByTime_sorted x acc h)
  exact key l [] (by simp)

/-- C7: the claim fails on the code — the gateway-backed listing re-sorts
by creation date, newest first: with two stored pending orders in
insertion order `[A, B]` where `B` is newer, the `status=pending` result
is `[B, A]`, not the insertion-order subsequence `[A, B]`. -/
theorem C7_counterexample :
    listOrders "pending" "" [apiOrderA, apiOrderB] = [apiOrderB, apiOrderA]
    ∧ List.filter (fun o => o.status = "pending") [apiOrderA, apiOrderB]
      = [apiOrderA, apiOrderB]
    ∧ apiOrderA ≠ apiOrderB := by
  decide

/-- C7 (amended): the timer-variant status filter is a pure
insertion-order-preserving projection (the `pending` result is exactly the
pending subsequence of the store); the gateway-backed listing instead
returns the pending subset re-sorted by `order_time` descending — a
permutation of that subsequence — and its in-place sort leaves the store
alone under a `pending` filter but reorders the store itself when the
filter is `all` with an empty search. -/
theorem C7_listing_projection_and_sort :
    (∀ orders : List Order,
      (filterByStatus "pending" orders).Sublist orders
      ∧ ∀ o : Order,
          o ∈ filterByStatus "pending" orders ↔ o ∈ orders ∧ o.status = .pending)
    ∧ (∀ orders : List ApiOrder,
      (listOrders "pending" "" orders).Perm
          (orders.filter fun o => o.status = "pending")
      ∧ (listOrders "pending" "" orders).Sorted
          fun a b => b.order_time ≤ a.order_time)
    ∧ (∀ (q : String) (orders : List ApiOrder),
      listEffectStore "pending" q orders = orders)
    ∧ ∀ orders : List ApiOrder,
      listEffectStore "all" "" orders = sortDescByTime orders := by
  have hkey : ∀ s : Status, statusKey s = "pending" ↔ s = .pending := by decide
  refine ⟨?_, ?_, ?_, ?_⟩
  · intro orders
    constructor
    · simp only [filterByStatus]
      rw [if_neg (by decide)]
      exact List.filter_sublist orders
    · intro o
      simp only [filterByStatus]
      rw [if_neg (by decide)]
      simp only [List.mem_filter, decide_eq_true_eq]
      exact and_congr_right fun _ => hkey o.status
  · intro orders
    have he : listOrders "pending" "" orders
        = sortDescByTime (orders.filter fun o => o.status = "pending") := rfl
    rw [he]
    exact ⟨sortDescByTime_perm _, sortDescByTime_sorted _⟩
  · intro q orders
    simp only [listEffectStore]
    rw [if_neg fun h => absurd h.1 (by decide)]
  · intro orders
    rfl
